import Mathlib

/-!
Shallow embedding of `src/assistant.py`, a voice-assistant glue script.

Each Python function is embedded as a Lean function over explicit outcome
parameters describing the results of its external effects (HTTP requests,
audio playback, speech recognition). Every embedded function returns the
list of observable events it produces (prints, synthesis invocations,
network requests, playback starts, fallback invocations). Code that can
raise a Python exception is modelled with `Except PyExn`; Python
`try/except` blocks become matches on that result. `exit()` raises
`SystemExit`, which is not an `Exception` subclass and therefore
propagates past every `except Exception` handler; it is modelled by a
separate `Except Unit` layer on the provisioning result.
-/

namespace Assistant

/-- Observable events of a run. `printMsg` models console prints (the
variable exception text that Python interpolates is elided, keeping the
fixed prefix). `dispatchCall` marks an invocation of `process_command`,
`synthCall` an invocation of `text_to_speech` (with the voice argument it
received), `httpPost` an HTTP request performed against the synthesis
endpoint, `playStarted` a successful `playsound` start, and
`fallbackCall` an invocation of the fallback `use_pyttsx3`. -/
inductive Event where
  | printMsg (msg : String)
  | dispatchCall (query : String)
  | synthCall (text : String) (vid : Option String)
  | httpPost (voice : String) (text : String)
  | playStarted
  | fallbackCall
  deriving DecidableEq, Repr

/-- Python exceptions that the script can raise and catch. All of these
derive from `Exception`. -/
inductive PyExn where
  | requestException
  | playsoundException
  | jsonDecodeError
  | otherException
  deriving DecidableEq, Repr

/-- Outcome of one `requests.get`/`requests.post` plus
`raise_for_status`: success (2xx), a non-2xx HTTP status, or a
connection-level failure. Both failures raise
`requests.exceptions.RequestException`. -/
inductive NetOutcome where
  | ok
  | non2xx
  | connErr
  deriving DecidableEq, Repr

/-- Outcome of the `try` body of `play_audio_from_stream` (temp-file
write plus the `playsound.playsound` call). -/
inductive PlayOutcome where
  | ok
  | playsoundErr
  | otherErr
  deriving DecidableEq, Repr

/-- Outcome of the `try` body of `use_pyttsx3`. -/
inductive FbOutcome where
  | ok
  | err
  deriving DecidableEq, Repr

/-- External-world outcomes consumed by one `text_to_speech` call. -/
structure SynthEnv where
  net : NetOutcome
  play : PlayOutcome
  fb : FbOutcome
  deriving DecidableEq, Repr

/-- Python substring containment, `needle in hay`. -/
def pyIn (needle hay : String) : Bool :=
  decide (needle.data <:+: hay.data)

/-- Python `str.lower()` (ASCII casing, which covers every string the
script compares against). -/
def pyLower (s : String) : String :=
  String.mk (s.data.map Char.toLower)

/-- Python truthiness of a string: `""` is falsy. -/
def pyTruthy (s : String) : Bool :=
  !(s == "")

/-- Python truthiness of the `VOICE_ID` global: `None` and `""` are
falsy. -/
def pyTruthyOpt : Option String → Bool
  | none => false
  | some s => pyTruthy s

/-- `use_pyttsx3(audio_stream)`: the fallback playback path. Its whole
body is wrapped in `try ... except Exception`, so it never raises. -/
def use_pyttsx3 (fb : FbOutcome) : List Event :=
  Event.fallbackCall ::
    match fb with
    | .ok => []
    | .err => [Event.printMsg "Error playing audio with pyttsx3"]

/-- The `try` body of `play_audio_from_stream`: write the bytes to a
temp file and start `playsound` non-blocking. A `PlaysoundException` or
any other exception may escape this body. -/
def playsound_try (po : PlayOutcome) : List Event × Except PyExn Unit :=
  match po with
  | .ok => ([Event.playStarted], Except.ok ())
  | .playsoundErr => ([], Except.error PyExn.playsoundException)
  | .otherErr => ([], Except.error PyExn.otherException)

/-- `play_audio_from_stream(audio_stream)`: primary playback with
`except playsound.PlaysoundException` falling back to `use_pyttsx3` and
`except Exception` printing. The returned `Except` is what the caller
observes: `Except.error` would mean an exception propagated. -/
def play_audio_from_stream (po : PlayOutcome) (fb : FbOutcome) :
    List Event × Except PyExn Unit :=
  match playsound_try po with
  | (evs, Except.ok _) => (evs, Except.ok ())
  | (evs, Except.error PyExn.playsoundException) =>
    (evs ++ Event.printMsg "Error playing audio with playsound" :: use_pyttsx3 fb,
      Except.ok ())
  | (evs, Except.error _) =>
    (evs ++ [Event.printMsg "An unexpected error occurred during audio playback"],
      Except.ok ())

/-- The `try` body of `text_to_speech` once a voice id is present:
`requests.post` to the synthesis endpoint, `raise_for_status`, then hand
the bytes to `play_audio_from_stream`. A non-2xx status or connection
failure raises `RequestException` after the request was performed. -/
def tts_request (v : String) (text : String) (e : SynthEnv) :
    List Event × Except PyExn Unit :=
  match e.net with
  | .ok =>
    match play_audio_from_stream e.play e.fb with
    | (evs, r) => (Event.httpPost v text :: evs, r)
  | .non2xx => ([Event.httpPost v text], Except.error PyExn.requestException)
  | .connErr => ([Event.httpPost v text], Except.error PyExn.requestException)

/-- `text_to_speech(text, voice_id)`: guard `voice_id is None`, then the
`try` body with `except RequestException` and `except Exception`
handlers, both of which only print, so the function never raises. -/
def text_to_speech (text : String) (voice_id : Option String) (e : SynthEnv) :
    List Event :=
  Event.synthCall text voice_id ::
    match voice_id with
    | none => [Event.printMsg "Error: No voice ID provided."]
    | some v =>
      match tts_request v text e with
      | (evs, Except.ok _) => evs
      | (evs, Except.error PyExn.requestException) =>
        evs ++ [Event.printMsg "Error during TTS request"]
      | (evs, Except.error _) =>
        evs ++ [Event.printMsg "An unexpected error occurred during TTS"]

/-- A wall-clock instant as `datetime.datetime.now()` returns it, to the
precision `strftime('%I:%M %p')` consumes. -/
structure Time where
  hour : Nat
  minute : Nat
  deriving DecidableEq, Repr

/-- Two-digit zero-padded decimal rendering used by `%I` and `%M` for
values below 100. -/
def pad2 (n : Nat) : String :=
  String.mk [Char.ofNat (48 + n / 10 % 10), Char.ofNat (48 + n % 10)]

/-- The 12-hour clock value of `%I`: 0 and 12 render as 12. -/
def hour12 (h : Nat) : Nat :=
  (h + 11) % 12 + 1

/-- `%p` in the C locale. -/
def meridiem (h : Nat) : String :=
  if h < 12 then "AM" else "PM"

/-- `now.strftime('%I:%M %p')`. -/
def strftime_I_M_p (t : Time) : String :=
  pad2 (hour12 t.hour) ++ ":" ++ pad2 t.minute ++ " " ++ meridiem t.hour

/-- Whether a string matches the regex `\d\x7b2\x7d:\d\x7b2\x7d (AM|PM)`
in full. -/
def timePattern (s : String) : Bool :=
  match s.data with
  | [a, b, ':', c, d, ' ', p, q] =>
    a.isDigit && b.isDigit && c.isDigit && d.isDigit &&
      (p == 'A' || p == 'P') && q == 'M'
  | _ => false

/-- `process_command(query)`: the ordered first-match trigger table.
Returns the loop-termination boolean and the events produced; every
branch is a single `text_to_speech` call and only the exit branch
returns `True`. -/
def process_command (query : String) (t : Time) (vid : Option String)
    (e : SynthEnv) : Bool × List Event :=
  if pyIn "hello" query then
    (false, Event.dispatchCall query ::
      text_to_speech "Hello! How can I help you?" vid e)
  else if pyIn "what is the time" query then
    (false, Event.dispatchCall query ::
      text_to_speech ("The time is " ++ strftime_I_M_p t) vid e)
  else if pyIn "exit" query || pyIn "quit" query || pyIn "stop" query then
    (true, Event.dispatchCall query :: text_to_speech "Goodbye!" vid e)
  else
    (false, Event.dispatchCall query ::
      text_to_speech "I\x27m sorry, I don\x27t understand that yet." vid e)

/-- Outcome of one speech-recognition attempt in `listen()`. -/
inductive RecogOutcome where
  | ok (transcript : String)
  | unknownValue
  | requestErr
  deriving DecidableEq, Repr

/-- `listen()`: returns the lowercased transcript on success and `""` on
`UnknownValueError` or `RequestError`; never raises to the caller. -/
def listen (r : RecogOutcome) : String × List Event :=
  match r with
  | .ok q =>
    (pyLower q,
      [Event.printMsg "Listening...", Event.printMsg "Recognizing...",
        Event.printMsg ("User said: " ++ q)])
  | .unknownValue =>
    ("",
      [Event.printMsg "Listening...", Event.printMsg "Recognizing...",
        Event.printMsg "Sorry, I could not understand."])
  | .requestErr =>
    ("",
      [Event.printMsg "Listening...", Event.printMsg "Recognizing...",
        Event.printMsg "Could not request results from Google Speech Recognition service"])

/-- The JSON dictionary the voice-creation endpoint answers with, to the
extent `create_custom_voice` inspects it: whether `response.json()`
parses, and the value of the `voice_id` field when present. -/
structure UploadResp where
  jsonOk : Bool
  voice_id : Option String
  deriving DecidableEq, Repr

/-- External-world outcomes consumed by one `create_custom_voice` call:
the sample download and the voice-creation upload. -/
structure ProvEnv where
  download : NetOutcome
  upload : NetOutcome
  resp : UploadResp
  deriving DecidableEq, Repr

/-- Result of `create_custom_voice`: `result` is `Except.error ()` when
`exit()` terminated the process (SystemExit propagates past every
handler in the function), otherwise the returned value (`none` models
Python `None` after a caught failure). `sampleFileExists` records
whether `voice_sample.mp3` is still on disk afterwards. -/
structure ProvOutcome where
  result : Except Unit (Option String)
  sampleFileExists : Bool
  events : List Event
  deriving Repr

/-- `create_custom_voice()`: download the sample, write
`voice_sample.mp3`, upload it, read `voice_id` from the JSON (calling
`exit()` when the field is missing), and `os.remove` the sample only on
the success path. `RequestException`, `FileNotFoundError`,
`JSONDecodeError` and `Exception` are caught and turn into prints plus
`return None`; the `FileNotFoundError` handler is unreachable because
the file is written before it is reopened. -/
def create_custom_voice (env : ProvEnv) : ProvOutcome :=
  match env.download with
  | .non2xx =>
    { result := Except.ok none, sampleFileExists := false,
      events := [Event.printMsg "Error during request"] }
  | .connErr =>
    { result := Except.ok none, sampleFileExists := false,
      events := [Event.printMsg "Error during request"] }
  | .ok =>
    match env.upload with
    | .non2xx =>
      { result := Except.ok none, sampleFileExists := true,
        events := [Event.printMsg "Error during request"] }
    | .connErr =>
      { result := Except.ok none, sampleFileExists := true,
        events := [Event.printMsg "Error during request"] }
    | .ok =>
      if env.resp.jsonOk then
        match env.resp.voice_id with
        | some vid =>
          { result := Except.ok (some vid), sampleFileExists := false,
            events := [Event.printMsg ("Custom voice created with ID: " ++ vid)] }
        | none =>
          { result := Except.error (), sampleFileExists := true,
            events := [Event.printMsg "Error creating voice"] }
      else
        { result := Except.ok none, sampleFileExists := true,
          events := [Event.printMsg "Error: Invalid JSON response from ElevenLabs API."] }

/-- Whether a `create_custom_voice` run succeeds end to end (download
ok, upload ok, JSON parses, `voice_id` field present). -/
def provSucceeds (env : ProvEnv) : Bool :=
  env.download == NetOutcome.ok && env.upload == NetOutcome.ok &&
    env.resp.jsonOk && env.resp.voice_id.isSome

/-- External-world outcomes consumed by one iteration of the main
loop. -/
structure IterEnv where
  recog : RecogOutcome
  t : Time
  env : SynthEnv
  deriving DecidableEq, Repr

/-- The `while True` loop of `__main__`, run against a finite prefix of
iteration inputs: `command = listen()`, skip falsy commands, otherwise
dispatch and break when `process_command` returns `True`. -/
def main_loop (vid : Option String) : List IterEnv → List Event
  | [] => []
  | it :: rest =>
    if pyTruthy (listen it.recog).1 then
      if (process_command (listen it.recog).1 it.t vid it.env).1 then
        (listen it.recog).2 ++ (process_command (listen it.recog).1 it.t vid it.env).2
      else
        (listen it.recog).2 ++ (process_command (listen it.recog).1 it.t vid it.env).2 ++
          main_loop vid rest
    else (listen it.recog).2 ++ main_loop vid rest

/-- `__main__` (with the API key present): provision the voice, exit
when `create_custom_voice` returned a falsy value, otherwise speak the
greeting and enter the main loop. A `SystemExit` raised inside
provisioning terminates the process immediately. -/
def main_run (p : ProvEnv) (greet : SynthEnv) (iters : List IterEnv) :
    List Event :=
  match (create_custom_voice p).result with
  | Except.error _ => (create_custom_voice p).events
  | Except.ok vid =>
    if pyTruthyOpt vid then
      (create_custom_voice p).events ++
        text_to_speech
          "Hello, I am your custom voice assistant. How can I help you today?"
          vid greet ++
        main_loop vid iters
    else
      (create_custom_voice p).events ++
        [Event.printMsg "Failed to create custom voice. Exiting."]

/-- The texts of the `text_to_speech` invocations in a trace. -/
def synthTexts (evs : List Event) : List String :=
  evs.filterMap fun e =>
    match e with
    | Event.synthCall t _ => some t
    | _ => none

/-- The number of HTTP requests against the synthesis endpoint in a
trace. -/
def numRequests (evs : List Event) : Nat :=
  (evs.filterMap fun e =>
    match e with
    | Event.httpPost v t => some (v, t)
    | _ => none).length

/-- The number of `use_pyttsx3` fallback invocations in a trace. -/
def numFallbackCalls (evs : List Event) : Nat :=
  (evs.filterMap fun e =>
    match e with
    | Event.fallbackCall => some ()
    | _ => none).length

/-! ### Helper lemmas -/

lemma synthTexts_append (a b : List Event) :
    synthTexts (a ++ b) = synthTexts a ++ synthTexts b :=
  List.filterMap_append a b _

lemma synthTexts_text_to_speech (text : String) (vid : Option String)
    (e : SynthEnv) : synthTexts (text_to_speech text vid e) = [text] := by
  obtain ⟨n, p, f⟩ := e
  cases vid <;> cases n <;> cases p <;> cases f <;> rfl

lemma synthCall_mem_text_to_speech {tx : String} {v : Option String}
    {text : String} {vid : Option String} {e : SynthEnv}
    (h : Event.synthCall tx v ∈ text_to_speech text vid e) :
    tx = text ∧ v = vid := by
  obtain ⟨n, p, f⟩ := e
  cases vid <;> cases n <;> cases p <;> cases f <;>
    simpa [text_to_speech, tts_request, play_audio_from_stream,
      playsound_try, use_pyttsx3] using h

lemma process_command_hello {q : String} (t : Time) (vid : Option String)
    (e : SynthEnv) (h : pyIn "hello" q = true) :
    process_command q t vid e =
      (false, Event.dispatchCall q ::
        text_to_speech "Hello! How can I help you?" vid e) := by
  simp [process_command, h]

lemma process_command_time {q : String} (t : Time) (vid : Option String)
    (e : SynthEnv) (h1 : pyIn "hello" q = false)
    (h2 : pyIn "what is the time" q = true) :
    process_command q t vid e =
      (false, Event.dispatchCall q ::
        text_to_speech ("The time is " ++ strftime_I_M_p t) vid e) := by
  simp [process_command, h1, h2]

lemma process_command_exitBranch {q : String} (t : Time) (vid : Option String)
    (e : SynthEnv) (h1 : pyIn "hello" q = false)
    (h2 : pyIn "what is the time" q = false)
    (h3 : (pyIn "exit" q || pyIn "quit" q || pyIn "stop" q) = true) :
    process_command q t vid e =
      (true, Event.dispatchCall q :: text_to_speech "Goodbye!" vid e) := by
  simp [process_command, h1, h2, h3]

lemma process_command_else {q : String} (t : Time) (vid : Option String)
    (e : SynthEnv) (h1 : pyIn "hello" q = false)
    (h2 : pyIn "what is the time" q = false)
    (h3 : (pyIn "exit" q || pyIn "quit" q || pyIn "stop" q) = false) :
    process_command q t vid e =
      (false, Event.dispatchCall q ::
        text_to_speech "I\x27m sorry, I don\x27t understand that yet." vid e) := by
  simp [process_command, h1, h2, h3]

lemma process_command_shape (q : String) (t : Time) (vid : Option String)
    (e : SynthEnv) :
    ∃ b s, process_command q t vid e =
      (b, Event.dispatchCall q :: text_to_speech s vid e) := by
  unfold process_command
  split
  · exact ⟨_, _, rfl⟩
  split
  · exact ⟨_, _, rfl⟩
  split
  · exact ⟨_, _, rfl⟩
  · exact ⟨_, _, rfl⟩

lemma synthCall_mem_process_command {tx : String} {v : Option String}
    {q : String} {t : Time} {vid : Option String} {e : SynthEnv}
    (h : Event.synthCall tx v ∈ (process_command q t vid e).2) : v = vid := by
  obtain ⟨b, s, hs⟩ := process_command_shape q t vid e
  rw [hs] at h
  simp only [List.mem_cons] at h
  rcases h with h | h
  · simp at h
  · exact (synthCall_mem_text_to_speech h).2

lemma synthCall_not_mem_listen (r : RecogOutcome) (tx : String)
    (v : Option String) : Event.synthCall tx v ∉ (listen r).2 := by
  cases r <;> simp [listen]

lemma dispatchCall_not_mem_listen (r : RecogOutcome) (q : String) :
    Event.dispatchCall q ∉ (listen r).2 := by
  cases r <;> simp [listen]

lemma synthCall_mem_main_loop {tx : String} {v vid : Option String} :
    ∀ {iters : List IterEnv},
      Event.synthCall tx v ∈ main_loop vid iters → v = vid := by
  intro iters
  induction iters with
  | nil => intro h; simp [main_loop] at h
  | cons it rest ih =>
    intro h
    simp only [main_loop] at h
    by_cases ht : pyTruthy (listen it.recog).1
    · simp only [ht, if_true] at h
      by_cases hx : (process_command (listen it.recog).1 it.t vid it.env).1
      · simp only [hx, if_true] at h
        rcases List.mem_append.mp h with h | h
        · exact absurd h (synthCall_not_mem_listen it.recog tx v)
        · exact synthCall_mem_process_command h
      · simp only [hx, if_false, Bool.false_eq_true] at h
        rcases List.mem_append.mp h with h | h
        · rcases List.mem_append.mp h with h | h
          · exact absurd h (synthCall_not_mem_listen it.recog tx v)
          · exact synthCall_mem_process_command h
        · exact ih h
    · simp only [ht, if_false, Bool.false_eq_true] at h
      rcases List.mem_append.mp h with h | h
      · exact absurd h (synthCall_not_mem_listen it.recog tx v)
      · exact ih h

lemma synthCall_not_mem_prov (p : ProvEnv) (tx : String) (v : Option String) :
    Event.synthCall tx v ∉ (create_custom_voice p).events := by
  obtain ⟨d, u, j, vf⟩ := p
  cases d <;> cases u <;> cases j <;> cases vf <;> simp [create_custom_voice]

lemma truthy_opt {vid : Option String} (h : pyTruthyOpt vid = true) :
    ∃ s, vid = some s ∧ s ≠ "" := by
  cases vid with
  | none => simp [pyTruthyOpt] at h
  | some s => exact ⟨s, rfl, by simpa [pyTruthyOpt, pyTruthy] using h⟩

lemma main_run_error (p : ProvEnv) (g : SynthEnv) (iters : List IterEnv)
    (h : (create_custom_voice p).result = Except.error ()) :
    main_run p g iters = (create_custom_voice p).events := by
  unfold main_run
  rw [h]

lemma main_run_falsy (p : ProvEnv) (g : SynthEnv) (iters : List IterEnv)
    (vid : Option String) (h : (create_custom_voice p).result = Except.ok vid)
    (hf : pyTruthyOpt vid = false) :
    main_run p g iters = (create_custom_voice p).events ++
      [Event.printMsg "Failed to create custom voice. Exiting."] := by
  unfold main_run
  rw [h]
  simp [hf]

lemma main_run_ok (p : ProvEnv) (g : SynthEnv) (iters : List IterEnv)
    (vid : Option String) (h : (create_custom_voice p).result = Except.ok vid)
    (ht : pyTruthyOpt vid = true) :
    main_run p g iters = (create_custom_voice p).events ++
      text_to_speech
        "Hello, I am your custom voice assistant. How can I help you today?"
        vid g ++
      main_loop vid iters := by
  unfold main_run
  rw [h]
  simp [ht]

lemma digitChar_isDigit (x : Nat) :
    (Char.ofNat (48 + x % 10)).isDigit = true := by
  have hlt : x % 10 < 10 := Nat.mod_lt _ (by decide)
  revert hlt
  generalize x % 10 = d
  intro hlt
  interval_cases d <;> decide

lemma timePattern_strftime (t : Time) :
    timePattern (strftime_I_M_p t) = true := by
  obtain ⟨h, m⟩ := t
  by_cases hh : h < 12
  · have e1 : strftime_I_M_p ⟨h, m⟩ =
        String.mk [Char.ofNat (48 + hour12 h / 10 % 10),
          Char.ofNat (48 + hour12 h % 10), ':',
          Char.ofNat (48 + m / 10 % 10), Char.ofNat (48 + m % 10), ' ',
          'A', 'M'] := by
      unfold strftime_I_M_p meridiem pad2
      rw [if_pos hh]
      rfl
    rw [e1]
    simp [timePattern, digitChar_isDigit]
  · have e1 : strftime_I_M_p ⟨h, m⟩ =
        String.mk [Char.ofNat (48 + hour12 h / 10 % 10),
          Char.ofNat (48 + hour12 h % 10), ':',
          Char.ofNat (48 + m / 10 % 10), Char.ofNat (48 + m % 10), ' ',
          'P', 'M'] := by
      unfold strftime_I_M_p meridiem pad2
      rw [if_neg hh]
      rfl
    rw [e1]
    simp [timePattern, digitChar_isDigit]

lemma synthTexts_dispatch_cons (q : String) (l : List Event) :
    synthTexts (Event.dispatchCall q :: l) = synthTexts l :=
  rfl

/-! ### Claim theorems -/

/-- C1: the voice identifier is non-empty before any synthesis call.
Every `text_to_speech` invocation in any finite run of `__main__`
carries `some s` with `s` non-empty; if provisioning exits via
`SystemExit` (missing `voice_id` field) the run is exactly
provisioning's output, and if provisioning returns a falsy value the
run is provisioning's output plus the failure print — in both cases
the greeting and the main loop are never reached. -/
theorem voice_id_nonempty_before_synthesis (p : ProvEnv) (g : SynthEnv)
    (iters : List IterEnv) :
    (∀ tx v, Event.synthCall tx v ∈ main_run p g iters →
      ∃ s, v = some s ∧ s ≠ "") ∧
    ((create_custom_voice p).result = Except.error () →
      main_run p g iters = (create_custom_voice p).events) ∧
    (∀ vid, (create_custom_voice p).result = Except.ok vid →
      pyTruthyOpt vid = false →
      main_run p g iters = (create_custom_voice p).events ++
        [Event.printMsg "Failed to create custom voice. Exiting."]) := by
  refine ⟨?_, ?_, ?_⟩
  · intro tx v h
    rcases hres : (create_custom_voice p).result with u | vid
    · cases u
      rw [main_run_error p g iters hres] at h
      exact absurd h (synthCall_not_mem_prov p tx v)
    · cases htr : pyTruthyOpt vid with
      | false =>
        rw [main_run_falsy p g iters vid hres htr] at h
        rcases List.mem_append.mp h with h | h
        · exact absurd h (synthCall_not_mem_prov p tx v)
        · simp at h
      | true =>
        rw [main_run_ok p g iters vid hres htr] at h
        rcases List.mem_append.mp h with h | h
        · rcases List.mem_append.mp h with h | h
          · exact absurd h (synthCall_not_mem_prov p tx v)
          · obtain ⟨_, hv⟩ := synthCall_mem_text_to_speech h
            obtain ⟨s, hs, hne⟩ := truthy_opt htr
            exact ⟨s, hv ▸ hs, hne⟩
        · have hv := synthCall_mem_main_loop h
          obtain ⟨s, hs, hne⟩ := truthy_opt htr
          exact ⟨s, hv ▸ hs, hne⟩
  · intro h
    exact main_run_error p g iters h
  · intro vid h hf
    exact main_run_falsy p g iters vid h hf

/-- Witness for C1: a concrete successful run in which the greeting
synthesis call occurs, so its voice identifier is some non-empty
string. -/
theorem voice_id_nonempty_before_synthesis_witness :
    ∃ s, (some "v1" : Option String) = some s ∧ s ≠ "" :=
  (voice_id_nonempty_before_synthesis
    ⟨NetOutcome.ok, NetOutcome.ok, true, some "v1"⟩
    ⟨NetOutcome.ok, PlayOutcome.ok, FbOutcome.ok⟩ []).1
    "Hello, I am your custom voice assistant. How can I help you today?"
    (some "v1") (by decide)

/-- C2: an utterance containing both "hello" and "exit" takes only the
greeting branch (first match in source order) and returns `false`: the
trace carries exactly one synthesis text, the greeting. -/
theorem hello_beats_exit {q : String} (t : Time) (vid : Option String)
    (e : SynthEnv) (h1 : pyIn "hello" q = true)
    (h2 : pyIn "exit" q = true) :
    (process_command q t vid e).1 = false ∧
    synthTexts (process_command q t vid e).2 =
      ["Hello! How can I help you?"] := by
  rw [process_command_hello t vid e h1]
  exact ⟨rfl, by rw [synthTexts_dispatch_cons, synthTexts_text_to_speech]⟩

/-- Witness for C2 at the utterance "hello exit". -/
theorem hello_beats_exit_witness :
    (process_command "hello exit" ⟨10, 30⟩ (some "v")
      ⟨NetOutcome.ok, PlayOutcome.ok, FbOutcome.ok⟩).1 = false ∧
    synthTexts (process_command "hello exit" ⟨10, 30⟩ (some "v")
      ⟨NetOutcome.ok, PlayOutcome.ok, FbOutcome.ok⟩).2 =
      ["Hello! How can I help you?"] :=
  hello_beats_exit ⟨10, 30⟩ (some "v")
    ⟨NetOutcome.ok, PlayOutcome.ok, FbOutcome.ok⟩ (by decide) (by decide)

/-- C3 counterexample: "hello exit" contains "exit" yet
`process_command` returns `false`, because the "hello" branch fires
first. -/
theorem exit_returns_true_counterexample :
    pyIn "exit" "hello exit" = true ∧
    (process_command "hello exit" ⟨10, 30⟩ (some "v")
      ⟨NetOutcome.ok, PlayOutcome.ok, FbOutcome.ok⟩).1 = false := by
  decide

/-- C3 amended: an utterance containing "exit", "quit" or "stop" makes
`process_command` return `true`, provided no earlier trigger in the
table ("hello", "what is the time") also matches. -/
theorem exit_quit_stop_terminates {q : String} (t : Time)
    (vid : Option String) (e : SynthEnv)
    (hex : (pyIn "exit" q || pyIn "quit" q || pyIn "stop" q) = true)
    (h1 : pyIn "hello" q = false)
    (h2 : pyIn "what is the time" q = false) :
    (process_command q t vid e).1 = true := by
  rw [process_command_exitBranch t vid e h1 h2 hex]

/-- Witness for the amended C3 at the utterance "please stop". -/
theorem exit_quit_stop_terminates_witness :
    (process_command "please stop" ⟨10, 30⟩ (some "v")
      ⟨NetOutcome.ok, PlayOutcome.ok, FbOutcome.ok⟩).1 = true :=
  exit_quit_stop_terminates ⟨10, 30⟩ (some "v")
    ⟨NetOutcome.ok, PlayOutcome.ok, FbOutcome.ok⟩
    (by decide) (by decide) (by decide)

/-- C4: for every raw utterance containing "hello" in any casing, the
recognizer output (which `listen` lowercases) makes the dispatcher
return `false` and synthesize exactly the greeting. -/
theorem hello_any_case {u : String} (t : Time) (vid : Option String)
    (e : SynthEnv) (h : pyIn "hello" (pyLower u) = true) :
    (process_command (listen (RecogOutcome.ok u)).1 t vid e).1 = false ∧
    synthTexts (process_command (listen (RecogOutcome.ok u)).1 t vid e).2 =
      ["Hello! How can I help you?"] := by
  have hl : (listen (RecogOutcome.ok u)).1 = pyLower u := rfl
  rw [hl, process_command_hello t vid e h]
  exact ⟨rfl, by rw [synthTexts_dispatch_cons, synthTexts_text_to_speech]⟩

/-- Witness for C4 at the raw utterance "Say HELLO please". -/
theorem hello_any_case_witness :
    (process_command (listen (RecogOutcome.ok "Say HELLO please")).1
      ⟨10, 30⟩ (some "v")
      ⟨NetOutcome.ok, PlayOutcome.ok, FbOutcome.ok⟩).1 = false ∧
    synthTexts (process_command (listen (RecogOutcome.ok "Say HELLO please")).1
      ⟨10, 30⟩ (some "v")
      ⟨NetOutcome.ok, PlayOutcome.ok, FbOutcome.ok⟩).2 =
      ["Hello! How can I help you?"] :=
  hello_any_case ⟨10, 30⟩ (some "v")
    ⟨NetOutcome.ok, PlayOutcome.ok, FbOutcome.ok⟩ (by decide)

/-- C5 counterexample: when the sample downloads but the provider
response lacks `voice_id`, `create_custom_voice` exits with
`voice_sample.mp3` still on disk — the cleanup is not scoped. -/
theorem temp_file_cleanup_counterexample :
    (create_custom_voice
      ⟨NetOutcome.ok, NetOutcome.ok, true, none⟩).result = Except.error () ∧
    (create_custom_voice
      ⟨NetOutcome.ok, NetOutcome.ok, true, none⟩).sampleFileExists = true :=
  ⟨rfl, rfl⟩

/-- C5 amended: `voice_sample.mp3` is removed only on the fully
successful path; it survives exactly the runs where the download
succeeded but the upload, the JSON parse, or the `voice_id` field
failed (and is never created when the download fails). -/
theorem temp_file_cleanup_amended (env : ProvEnv) :
    (create_custom_voice env).sampleFileExists =
      ((env.download == NetOutcome.ok) && !(provSucceeds env)) := by
  obtain ⟨d, u, j, vf⟩ := env
  cases d <;> cases u <;> cases j <;> cases vf <;> rfl

/-- C6: `play_audio_from_stream` never propagates an exception, and a
`PlaysoundException` from primary playback invokes `use_pyttsx3`
exactly once (and it is not invoked otherwise). -/
theorem play_never_raises (po : PlayOutcome) (fb : FbOutcome) :
    (play_audio_from_stream po fb).2 = Except.ok () ∧
    (po = PlayOutcome.playsoundErr →
      numFallbackCalls (play_audio_from_stream po fb).1 = 1) ∧
    (po ≠ PlayOutcome.playsoundErr →
      numFallbackCalls (play_audio_from_stream po fb).1 = 0) := by
  cases po <;> cases fb <;>
    exact ⟨rfl, fun h => by first | rfl | exact absurd h (by decide),
      fun h => by first | rfl | exact absurd rfl h⟩

/-- Witness for C6: primary failure yields one fallback call; primary
success yields none, and neither raises. -/
theorem play_never_raises_witness :
    (play_audio_from_stream PlayOutcome.playsoundErr FbOutcome.ok).2 =
      Except.ok () ∧
    numFallbackCalls
      (play_audio_from_stream PlayOutcome.playsoundErr FbOutcome.ok).1 = 1 ∧
    numFallbackCalls
      (play_audio_from_stream PlayOutcome.ok FbOutcome.ok).1 = 0 :=
  ⟨(play_never_raises PlayOutcome.playsoundErr FbOutcome.ok).1,
    (play_never_raises PlayOutcome.playsoundErr FbOutcome.ok).2.1 rfl,
    (play_never_raises PlayOutcome.ok FbOutcome.ok).2.2 (by decide)⟩

/-- C7: the boolean `process_command` returns is the same for every
outcome of the synthesis calls inside it, and a non-2xx status from the
synthesis endpoint is caught inside `text_to_speech` (the call
completes, leaving only the request and the error print). -/
theorem synthesis_failure_preserves_decision (q : String) (t : Time)
    (vid : Option String) (e e2 : SynthEnv) :
    (process_command q t vid e).1 = (process_command q t vid e2).1 ∧
    (∀ text v, text_to_speech text (some v)
        ⟨NetOutcome.non2xx, e.play, e.fb⟩ =
      [Event.synthCall text (some v), Event.httpPost v text,
        Event.printMsg "Error during TTS request"]) := by
  constructor
  · by_cases h1 : pyIn "hello" q
    · simp [process_command, h1]
    · by_cases h2 : pyIn "what is the time" q
      · simp [process_command, h1, h2]
      · by_cases h3 : (pyIn "exit" q || pyIn "quit" q || pyIn "stop" q)
        · simp [process_command, h1, h2, h3]
        · simp [process_command, h1, h2, h3]
  · intro text v
    rfl

/-- C8: with no voice identifier, `text_to_speech` only reports the
precondition error; in particular it performs no network request. -/
theorem tts_requires_voice_id (text : String) (e : SynthEnv) :
    text_to_speech text none e =
      [Event.synthCall text none,
        Event.printMsg "Error: No voice ID provided."] ∧
    numRequests (text_to_speech text none e) = 0 :=
  ⟨rfl, rfl⟩

/-- C9: on "what is the time", the dispatcher synthesizes exactly one
text, the current time rendered by `%I:%M %p`, whose time part matches
the two-digit `HH:MM AM/PM` pattern, and returns `false`. -/
theorem time_query_speaks_formatted_time (t : Time) (vid : Option String)
    (e : SynthEnv) (hh : t.hour < 24) (hm : t.minute < 60) :
    (process_command "what is the time" t vid e).1 = false ∧
    synthTexts (process_command "what is the time" t vid e).2 =
      ["The time is " ++ strftime_I_M_p t] ∧
    timePattern (strftime_I_M_p t) = true := by
  rw [process_command_time t vid e (by decide) (by decide)]
  exact ⟨rfl, by rw [synthTexts_dispatch_cons, synthTexts_text_to_speech],
    timePattern_strftime t⟩

/-- Witness for C9 at 15:07, rendered "03:07 PM". -/
theorem time_query_speaks_formatted_time_witness :
    (process_command "what is the time" ⟨15, 7⟩ (some "v")
      ⟨NetOutcome.ok, PlayOutcome.ok, FbOutcome.ok⟩).1 = false ∧
    synthTexts (process_command "what is the time" ⟨15, 7⟩ (some "v")
      ⟨NetOutcome.ok, PlayOutcome.ok, FbOutcome.ok⟩).2 =
      ["The time is " ++ strftime_I_M_p ⟨15, 7⟩] ∧
    timePattern (strftime_I_M_p ⟨15, 7⟩) = true :=
  time_query_speaks_formatted_time ⟨15, 7⟩ (some "v")
    ⟨NetOutcome.ok, PlayOutcome.ok, FbOutcome.ok⟩ (by decide) (by decide)

/-- C10: a loop iteration whose `listen` result is empty contributes
only the recognizer prints — `process_command` is not invoked (no
dispatch event exists in those prints) — even though
`process_command ""` itself would speak the fallback response. -/
theorem empty_utterance_skips_dispatch (vid : Option String) (it : IterEnv)
    (rest : List IterEnv) (h : (listen it.recog).1 = "") :
    main_loop vid (it :: rest) = (listen it.recog).2 ++ main_loop vid rest ∧
    (∀ q, Event.dispatchCall q ∉ (listen it.recog).2) ∧
    (∀ t e, synthTexts (process_command "" t vid e).2 =
      ["I\x27m sorry, I don\x27t understand that yet."]) := by
  refine ⟨?_, fun q => dispatchCall_not_mem_listen it.recog q, fun t e => ?_⟩
  · simp only [main_loop, h]
    simp [pyTruthy]
  · rw [process_command_else t vid e (by decide) (by decide) (by decide)]
    rw [synthTexts_dispatch_cons, synthTexts_text_to_speech]

/-- Witness for C10 at an iteration whose recognition raised
`UnknownValueError`. -/
theorem empty_utterance_skips_dispatch_witness :
    main_loop (some "v")
      [⟨RecogOutcome.unknownValue, ⟨1, 2⟩,
        ⟨NetOutcome.ok, PlayOutcome.ok, FbOutcome.ok⟩⟩] =
      (listen RecogOutcome.unknownValue).2 ++ main_loop (some "v") [] ∧
    (∀ q, Event.dispatchCall q ∉ (listen RecogOutcome.unknownValue).2) ∧
    (∀ t e, synthTexts (process_command "" t (some "v") e).2 =
      ["I\x27m sorry, I don\x27t understand that yet."]) :=
  empty_utterance_skips_dispatch (some "v")
    ⟨RecogOutcome.unknownValue, ⟨1, 2⟩,
      ⟨NetOutcome.ok, PlayOutcome.ok, FbOutcome.ok⟩⟩ [] rfl

end Assistant
